import Mathlib

/-
Verification of the Nokia_AI MCP tool-gateway against its specification.

The gateway under study lives in:
  * MCP/mcp-server/minimal_wrapper.py  — JSON-RPC 2.0 adapter (`POST /mcp`),
    legacy REST adapter (`POST /mcp/invoke`), manifest endpoint
    (`GET /mcp/manifest`), session endpoint;
  * MCP/mcp-server/compatible_server.py — session-resolving proxy endpoints;
  * MCP/shared/tools.py — `TOOL_IMPLEMENTATIONS`, `AVAILABLE_TOOLS_SCHEMA`,
    `json_encoder`;
  * MCP/toolbox_async.py — decorator-based tool registry and the
    `list_available_tools` manifest builder.

Python values travelling over the wire are modelled by an explicit JSON value
type.  Tool implementations perform external database I/O, so they are modelled
as parameters of type `Args → Except String String`: `.ok s` is the JSON string
the coroutine returns, `.error m` is a raised exception whose `str(e)` is `m`.
`json.loads` is likewise external and is passed in as a parameter
`String → Except String Json`.
-/

/- JSON values (the subset of Python values exchanged by the adapters).
`obj` keeps fields in insertion order, like a Python dict. -/
mutual
inductive Json where
  | null
  | bool (b : Bool)
  | int (n : Int)
  | str (s : String)
  | arr (elems : JsonList)
  | obj (fields : JsonObj)
deriving Repr, DecidableEq
inductive JsonList where
  | nil
  | cons (hd : Json) (tl : JsonList)
deriving Repr, DecidableEq
inductive JsonObj where
  | nil
  | cons (key : String) (val : Json) (tl : JsonObj)
deriving Repr, DecidableEq
end

/-- Build a `JsonList` from a Lean list (sugar for writing concrete payloads). -/
def JsonList.ofList : List Json → JsonList
  | [] => .nil
  | x :: xs => .cons x (JsonList.ofList xs)

/-- Build a `JsonObj` from a Lean association list. -/
def JsonObj.ofList : List (String × Json) → JsonObj
  | [] => .nil
  | (k, v) :: xs => .cons k v (JsonObj.ofList xs)

/-- First value bound to `key`, like Python `dict.get` (dicts here never
repeat keys, so first = only). -/
def JsonObj.get : JsonObj → String → Option Json
  | .nil, _ => none
  | .cons k v tl, key => if k = key then some v else tl.get key

/-- Python truthiness of an optional string: `None` and `""` are falsy
(`if not x:` in the source). -/
def pyFalsy : Option String → Bool
  | none => true
  | some s => s = ""

/-- Python `a or b` on optional strings: keep `a` when truthy, else `b`. -/
def pyOr (a b : Option String) : Option String :=
  match a with
  | some s => if s = "" then b else some s
  | none => b

/-- Keyword arguments of one invocation (`params["arguments"]` /
`body["input"]`), a Python dict of JSON values. -/
abbrev Args := List (String × Json)

/-- A tool implementation: receives keyword arguments, returns the JSON
string produced by the coroutine (`.ok`) or raises (`.error message`).
The real implementations in `tools.py` query MongoDB, which is external
to the gateway, so the table of implementations is a parameter below. -/
abbrev Impl := Args → Except String String

/-- A tool table in the shape of `TOOL_IMPLEMENTATIONS` from `tools.py`:
name → implementation, `none` when the name is not registered. -/
abbrev ToolTable := String → Option Impl

/-- An HTTP response as produced by the FastAPI handlers: a status code and
an optional JSON body (`none` models an empty body, as in `Response(status_code=204)`). -/
structure HttpResponse where
  status : Nat
  body : Option Json
deriving Repr, DecidableEq

/-- A JSON-RPC error envelope, as `minimal_wrapper.py` builds it:
`{"jsonrpc": "2.0", "error": {"code": c, "message": m}, "id": id}`. -/
def rpcError (code : Int) (message : String) (idv : Json) : Json :=
  .obj (.ofList [("jsonrpc", .str "2.0"),
                 ("error", .obj (.ofList [("code", .int code), ("message", .str message)])),
                 ("id", idv)])

/-- A JSON-RPC success envelope `{"jsonrpc": "2.0", "result": r, "id": id}`. -/
def rpcResult (r : Json) (idv : Json) : Json :=
  .obj (.ofList [("jsonrpc", .str "2.0"), ("result", r), ("id", idv)])

/-- The `tools/call` success payload:
`{"content": [{"type": "text", "text": result}]}` with the implementation's
string embedded verbatim. -/
def toolCallContent (result : String) : Json :=
  .obj (.ofList [("content",
    .arr (.ofList [.obj (.ofList [("type", .str "text"), ("text", .str result)])]))])

/-- One parsed JSON-RPC request body, restricted to the field accesses the
handler makes: `body.get("method")`, `params.get("name")`,
`params.get("arguments", {})`, `params.get("protocolVersion", "1.0")`,
`body.get("id")`.  Absent fields are `none`; an absent `id` serializes back
as JSON `null`, so `id` is kept as a `Json` with `.null` for absent. -/
structure RpcReq where
  method : Option String
  paramsName : Option String
  arguments : Args
  protocolVersion : Option Json
  idv : Json

/-- What reaches the JSON-RPC endpoint: a body that fails JSON parsing
(`json.JSONDecodeError`), an unexpected exception raised inside the handler
body (caught by the outer `except Exception`), or a parsed request. -/
inductive RpcInbound where
  | malformed
  | fault (msg : String)
  | request (r : RpcReq)

/-- `mcp_jsonrpc_handler` from `minimal_wrapper.py` (`POST /mcp`), over an
arbitrary tool table standing for the imported `TOOL_IMPLEMENTATIONS`.
`AVAILABLE_TOOLS_SCHEMA` is spliced into `tools/list` below once the schema
is defined; here the handler takes it as the argument `schema` so the
definition can precede the (long) schema transcription. -/
def mcp_jsonrpc_handler (impls : ToolTable) (schema : Json) : RpcInbound → HttpResponse
  | .malformed =>
      ⟨400, some (rpcError (-32700) "Parse error: Invalid JSON" .null)⟩
  | .fault msg =>
      ⟨500, some (rpcError (-32603) ("Internal error: " ++ msg) .null)⟩
  | .request r =>
      if pyFalsy r.method then
        ⟨400, some (rpcError (-32600) "Invalid Request: method required" r.idv)⟩
      else
        match r.method with
        | none => ⟨400, some (rpcError (-32600) "Invalid Request: method required" r.idv)⟩
        | some m =>
          if m = "initialize" then
            ⟨200, some (rpcResult (.obj (.ofList
              [("protocolVersion", r.protocolVersion.getD (.str "1.0")),
               ("capabilities", .obj (.ofList [("tools", .obj .nil)])),
               ("serverInfo", .obj (.ofList
                 [("name", .str "MongoToolServer"), ("version", .str "1.0.0")]))])) r.idv)⟩
          else if m = "notifications/initialized" then
            ⟨204, none⟩
          else if m = "tools/list" then
            ⟨200, some (rpcResult (.obj (.ofList [("tools", schema)])) r.idv)⟩
          else if m = "tools/call" then
            if pyFalsy r.paramsName then
              ⟨200, some (rpcError (-32602) "Invalid params: tool name required" r.idv)⟩
            else
              match r.paramsName with
              | none => ⟨200, some (rpcError (-32602) "Invalid params: tool name required" r.idv)⟩
              | some toolName =>
                match impls toolName with
                | none =>
                    ⟨200, some (rpcError (-32601) ("Method not found: " ++ toolName) r.idv)⟩
                | some toolFunc =>
                    match toolFunc r.arguments with
                    | .ok result => ⟨200, some (rpcResult (toolCallContent result) r.idv)⟩
                    | .error e =>
                        ⟨200, some (rpcError (-32603) ("Internal error: " ++ e) r.idv)⟩
          else
            ⟨200, some (rpcError (-32601) ("Method not found: " ++ m) r.idv)⟩

/-- What reaches the legacy REST endpoint `POST /mcp/invoke`: an unparsable
body, an unexpected in-handler exception, or a parsed body restricted to the
accessed fields `body.get("tool")` and `body.get("input", {})`. -/
inductive RestInbound where
  | malformed
  | fault (msg : String)
  | request (tool : Option String) (input : Args)

/-- `invoke_tool` from `minimal_wrapper.py` (`POST /mcp/invoke`).  `parse`
stands for `json.loads`, applied to the implementation's string result on the
success path; its exception text, like the implementation's, is caught by the
inner `except` and rendered as a 500 "Tool execution failed" body. -/
def invoke_tool (impls : ToolTable) (parse : String → Except String Json) :
    RestInbound → HttpResponse
  | .malformed =>
      ⟨400, some (.obj (.ofList [("error", .str "Invalid JSON in request body")]))⟩
  | .fault msg =>
      ⟨500, some (.obj (.ofList [("error", .str ("Internal server error: " ++ msg))]))⟩
  | .request tool input =>
      if pyFalsy tool then
        ⟨400, some (.obj (.ofList [("error", .str "Tool name required in 'tool' field")]))⟩
      else
        match tool with
        | none => ⟨400, some (.obj (.ofList [("error", .str "Tool name required in 'tool' field")]))⟩
        | some toolName =>
          match impls toolName with
          | none =>
              ⟨404, some (.obj (.ofList
                [("error", .str ("Tool '" ++ toolName ++ "' not found"))]))⟩
          | some toolFunc =>
              match toolFunc input with
              | .error e =>
                  ⟨500, some (.obj (.ofList
                    [("error", .str ("Tool execution failed: " ++ e))]))⟩
              | .ok s =>
                  match parse s with
                  | .error pe =>
                      ⟨500, some (.obj (.ofList
                        [("error", .str ("Tool execution failed: " ++ pe))]))⟩
                  | .ok j => ⟨200, some (.obj (.ofList [("result", j)]))⟩

/-- A JSON-Schema style property entry `{"type": t, "description": d}` as used
in `AVAILABLE_TOOLS_SCHEMA` (`tools.py`). -/
def schemaProp (t d : String) : Json :=
  .obj (.ofList [("type", .str t), ("description", .str d)])

/-- The `collection_name` property `{"type": "string", "enum": ["lane_data", "measurements"]}`. -/
def collectionProp : Json :=
  .obj (.ofList [("type", .str "string"),
                 ("enum", .arr (.ofList [.str "lane_data", .str "measurements"]))])

/-- `AVAILABLE_TOOLS_SCHEMA` from `tools.py`, transcribed verbatim: the five
tool schemas, each `{name, description, parameters: {type, properties, required}}`. -/
def AVAILABLE_TOOLS_SCHEMA : Json := .arr (.ofList [
  .obj (.ofList [
    ("name", .str "get_daily_traffic_profile"),
    ("description", .str "Calculates the typical hourly profile for a metric (e.g., speed, density) for a specific lane, automatically separating results by Weekday and Weekend. This is the best tool for understanding typical daily patterns or peak times."),
    ("parameters", .obj (.ofList [
      ("type", .str "object"),
      ("properties", .obj (.ofList [
        ("lane_id", schemaProp "string" "The specific lane_id to analyze from the 'lane_data' collection, e.g., ':13445139_0'."),
        ("metric_field", schemaProp "string" "The measurement field to analyze, e.g., 'speed', 'density'.")])),
      ("required", .arr (.ofList [.str "lane_id", .str "metric_field"]))]))]),
  .obj (.ofList [
    ("name", .str "plot_time_series"),
    ("description", .str "Generates and saves a line plot of a specific metric over a time range for a given ID. If no time range is given, it plots all available data. Returns the file path of the saved image."),
    ("parameters", .obj (.ofList [
      ("type", .str "object"),
      ("properties", .obj (.ofList [
        ("collection_name", collectionProp),
        ("metric_field", schemaProp "string" "The numeric field to plot, e.g., 'speed', 'flow'."),
        ("id_value", schemaProp "string" "The specific lane_id or source_id to filter by."),
        ("start_time", schemaProp "string" "Optional start of the time window in ISO format."),
        ("end_time", schemaProp "string" "Optional end of the time window in ISO format.")])),
      ("required", .arr (.ofList [.str "collection_name", .str "metric_field", .str "id_value"]))]))]),
  .obj (.ofList [
    ("name", .str "get_descriptive_stats"),
    ("description", .str "Calculates descriptive statistics for a metric. If no time range is given, it analyzes all data for that ID. Use 'lane_data' for lanes or 'measurements' for detectors."),
    ("parameters", .obj (.ofList [
      ("type", .str "object"),
      ("properties", .obj (.ofList [
        ("collection_name", collectionProp),
        ("metric_field", schemaProp "string" "The field to analyze, e.g., 'speed', 'density', 'count'."),
        ("id_value", schemaProp "string" "The specific lane_id or source_id to filter by."),
        ("start_time", schemaProp "string" "Optional start of the time window in ISO format."),
        ("end_time", schemaProp "string" "Optional end of the time window in ISO format.")])),
      ("required", .arr (.ofList [.str "collection_name", .str "metric_field", .str "id_value"]))]))]),
  .obj (.ofList [
    ("name", .str "aggregate_time_series"),
    ("description", .str "Calculates the average of a metric over specified time intervals (e.g., '15T' for 15 minutes, '1H' for 1 hour). This is useful for smoothing data to see trends."),
    ("parameters", .obj (.ofList [
      ("type", .str "object"),
      ("properties", .obj (.ofList [
        ("collection_name", collectionProp),
        ("metric_field", schemaProp "string" "The field to aggregate, e.g., 'flow', 'speed'."),
        ("id_value", schemaProp "string" "The specific lane_id or source_id to filter by."),
        ("start_time", schemaProp "string" "The start of the time window in ISO format."),
        ("end_time", schemaProp "string" "The end of the time window in ISO format."),
        ("resample_window", schemaProp "string" "The time interval for resampling, e.g., '15T' (15 min), '1H' (1 hour), '1D' (1 day).")])),
      ("required", .arr (.ofList [.str "collection_name", .str "metric_field", .str "id_value", .str "start_time", .str "end_time", .str "resample_window"]))]))]),
  .obj (.ofList [
    ("name", .str "find_peak_periods"),
    ("description", .str "Finds timestamps where a traffic metric (like vehicle 'count' or 'density') exceeds a specified threshold."),
    ("parameters", .obj (.ofList [
      ("type", .str "object"),
      ("properties", .obj (.ofList [
        ("collection_name", collectionProp),
        ("metric_field", schemaProp "string" "The field to check against the threshold, e.g., 'count' or 'density'."),
        ("id_value", schemaProp "string" "The specific lane_id or source_id to analyze."),
        ("threshold", schemaProp "number" "The value which the metric must exceed to be considered a peak."),
        ("start_time", schemaProp "string" "The start of the time window."),
        ("end_time", schemaProp "string" "The end of the time window.")])),
      ("required", .arr (.ofList [.str "collection_name", .str "metric_field", .str "id_value", .str "threshold", .str "start_time", .str "end_time"]))]))])])

/-- The names registered in `TOOL_IMPLEMENTATIONS` (`tools.py`, section 4):
the keys of the dict mapping names to the five coroutine implementations. -/
def TOOL_NAMES : List String :=
  ["get_daily_traffic_profile", "plot_time_series", "get_descriptive_stats",
   "aggregate_time_series", "find_peak_periods"]

/-- A tool table has the shape of `TOOL_IMPLEMENTATIONS`: it resolves exactly
the five registered names. -/
def registryShaped (impls : ToolTable) : Prop :=
  ∀ n : String, (impls n).isSome = true ↔ n ∈ TOOL_NAMES

/-- `GET /mcp/manifest` in `minimal_wrapper.py`: a 200 response whose body is
the fixed manifest wrapping `AVAILABLE_TOOLS_SCHEMA`. -/
def get_manifest : HttpResponse :=
  ⟨200, some (.obj (.ofList [
    ("name", .str "MongoToolServer"),
    ("description", .str "This server provides tools to interact with a local MongoDB database."),
    ("tools", AVAILABLE_TOOLS_SCHEMA)]))⟩

/-- One parameter of a Python function signature: its name and its declared
default (`none` = no default, i.e. `inspect.Parameter.empty` — the caller
must supply it). -/
structure PyParam where
  name : String
  dflt : Option Json
deriving Repr, DecidableEq

/-- Python keyword-argument binding for `func(**args)` against signature
`sig`: raises `TypeError` when a keyword does not name a parameter or when a
parameter without default receives no argument; otherwise binds every
parameter to the supplied value or its default.  This models the call step
the dispatcher performs with no pre-validation of its own. -/
def bindKwargs (sig : List PyParam) (args : Args) : Except String (List (String × Json)) :=
  match args.find? (fun kv => !(sig.any (fun p => p.name == kv.1))) with
  | some kv => .error ("got an unexpected keyword argument '" ++ kv.1 ++ "'")
  | none =>
    match sig.find? (fun p => p.dflt.isNone && !(args.any (fun kv => kv.1 == p.name))) with
    | some p => .error ("missing a required argument: '" ++ p.name ++ "'")
    | none =>
      .ok (sig.map (fun p =>
        (p.name, match args.find? (fun kv => kv.1 == p.name) with
                 | some kv => kv.2
                 | none => p.dflt.getD .null)))

/-- A Python tool function: keyword binding against `sig`, then the body
(external database logic, abstracted as a function of the bound arguments). -/
def mkPyTool (sig : List PyParam) (body : List (String × Json) → Except String String) : Impl :=
  fun args =>
    match bindKwargs sig args with
    | .error e => .error e
    | .ok bound => body bound

/-- Session metadata values stored by the servers: `{"created_at": "now"}`
from `create_session`, `{"temp": True}` for server-minted temporary ids. -/
inductive SessionMeta where
  | createdNow
  | temp
deriving Repr, DecidableEq

/-- `sessions[sid] = meta` on the process-wide dict: overwrite or append. -/
def storeSet (store : List (String × SessionMeta)) (sid : String) (meta : SessionMeta) :
    List (String × SessionMeta) :=
  if store.any (fun kv => kv.1 == sid) then
    store.map (fun kv => if kv.1 == sid then (sid, meta) else kv)
  else
    store ++ [(sid, meta)]

/-- Session resolution in `compatible_server.get_manifest`:
`request.headers.get("X-Session-ID") or request.query_params.get("sessionId")
or request.cookies.get("session_id")`; when that chain is falsy, a fresh
uuid (`fresh`, supplied by the environment) is minted and stored with
`{"temp": True}`.  Returns the resolved id and the updated store. -/
def resolveSessionManifest (header query cookie : Option String) (fresh : String)
    (store : List (String × SessionMeta)) : String × List (String × SessionMeta) :=
  match pyOr header (pyOr query cookie) with
  | some s => if s = "" then (fresh, storeSet store fresh .temp) else (s, store)
  | none => (fresh, storeSet store fresh .temp)

/-- Session resolution in `compatible_server.invoke_tool`:
`request.headers.get("X-Session-ID") or body.get("sessionId") or
request.query_params.get("sessionId")` — note the second source is the JSON
body and the cookie is never consulted on this endpoint. -/
def resolveSessionInvoke (header bodySessionId query : Option String) (fresh : String)
    (store : List (String × SessionMeta)) : String × List (String × SessionMeta) :=
  match pyOr header (pyOr bodySessionId query) with
  | some s => if s = "" then (fresh, storeSet store fresh .temp) else (s, store)
  | none => (fresh, storeSet store fresh .temp)

/-- Modelled from the spec: the session-resolution order the specification
asserts for every gateway endpoint — custom header, then query parameter,
then cookie, with a fresh temporary id only when all three are absent.
Defined for comparison with the source's `resolveSessionInvoke`. -/
def resolveSessionSpec (header query cookie : Option String) (fresh : String)
    (store : List (String × SessionMeta)) : String × List (String × SessionMeta) :=
  match pyOr header (pyOr query cookie) with
  | some s => if s = "" then (fresh, storeSet store fresh .temp) else (s, store)
  | none => (fresh, storeSet store fresh .temp)

/- Values returned by tool implementations that `json_encoder` (`tools.py`)
must convert.  Floating-point payloads are carried opaquely by a type
parameter `F`: the encoder moves them between types unchanged (`float(obj)`),
and no arithmetic on them is modelled.  External library attributes are
carried as data: `str(ObjectId)` is the hex string, `isoformat()` is the ISO
text the datetime library renders. -/
mutual
inductive NpTree (F : Type) where
  | int (n : Int)
  | float (x : F)
  | arr (elems : NpTreeList F)
deriving DecidableEq
inductive NpTreeList (F : Type) where
  | nil
  | cons (hd : NpTree F) (tl : NpTreeList F)
deriving DecidableEq
end

/-- A Python value reaching `json_encoder` as the `default=` hook of
`json.dumps`: exactly the `isinstance` cases of the source, plus
`unregistered` for any type with no registered conversion (carrying the
`type(obj)` rendering used in the raised message). -/
inductive PyObj (F : Type) where
  | objectId (hexStr : String)
  | npInteger (n : Int)
  | npFloating (x : F)
  | npArray (elems : NpTreeList F)
  | datetimeVal (iso : String)
  | pdTimestampVal (iso : String)
  | unregistered (typeStr : String)

/- Wire-safe encoder output: plain str / int / float / nested lists. -/
mutual
inductive Enc (F : Type) where
  | str (s : String)
  | int (n : Int)
  | float (x : F)
  | list (elems : EncList F)
deriving DecidableEq
inductive EncList (F : Type) where
  | nil
  | cons (hd : Enc F) (tl : EncList F)
deriving DecidableEq
end

/- `ndarray.tolist()`: numpy scalars become plain ints/floats, arrays become
nested plain lists. -/
mutual
def NpTree.tolist {F : Type} : NpTree F → Enc F
  | .int n => .int n
  | .float x => .float x
  | .arr xs => .list xs.tolistL
def NpTreeList.tolistL {F : Type} : NpTreeList F → EncList F
  | .nil => .nil
  | .cons h t => .cons h.tolist t.tolistL
end

/- An encoder output is a nested structure of plain numbers only (no
strings): the shape the spec requires of encoded array values. -/
mutual
def Enc.plainNumeric {F : Type} : Enc F → Bool
  | .str _ => false
  | .int _ => true
  | .float _ => true
  | .list xs => xs.plainNumericL
def EncList.plainNumericL {F : Type} : EncList F → Bool
  | .nil => true
  | .cons h t => h.plainNumeric && t.plainNumericL
end

/-- `json_encoder` from `tools.py`: ObjectId → str, numpy integer → int,
numpy floating → float, ndarray → tolist, datetime / pandas Timestamp →
isoformat; anything else raises
`TypeError(f"Object of type {type(obj)} is not JSON serializable")`. -/
def json_encoder {F : Type} : PyObj F → Except String (Enc F)
  | .objectId h => .ok (.str h)
  | .npInteger n => .ok (.int n)
  | .npFloating x => .ok (.float x)
  | .npArray xs => .ok (.list xs.tolistL)
  | .datetimeVal iso => .ok (.str iso)
  | .pdTimestampVal iso => .ok (.str iso)
  | .unregistered ty => .error ("Object of type " ++ ty ++ " is not JSON serializable")

/-- One parameter recorded by the `@tool` decorator of `toolbox_async.py`
via `inspect.signature`: name, rendered annotation, and declared default
(`none` = `inspect.Parameter.empty`).  The annotation rendering is carried
verbatim from the source text; no theorem depends on it. -/
structure ToolboxParam where
  name : String
  typeName : String
  dflt : Option Json
deriving Repr, DecidableEq

/-- One entry of `_toolbox_registry` in `toolbox_async.py`. -/
structure ToolboxEntry where
  name : String
  descr : String
  params : List ToolboxParam
deriving Repr, DecidableEq

/-- `_toolbox_registry` after `toolbox_async.py` is loaded: the twelve
`@tool`-decorated coroutines in registration (source) order, with their
signatures. -/
def toolbox_registry : List ToolboxEntry := [
  ⟨"list_available_tools",
   "Returns a JSON-encoded list of all available tools (name, description, parameters).",
   [⟨"db_client", "AsyncIOMotorClient", none⟩]⟩,
  ⟨"get_lanes_by_metric",
   "Ranks lanes by a metric (occupancy, speed, density, entered, waiting_time).",
   [⟨"db_client", "AsyncIOMotorClient", none⟩,
    ⟨"metric", "Metric", none⟩,
    ⟨"order", "SortOrder", some (.str "highest")⟩,
    ⟨"top_n", "int", some (.int 5)⟩]⟩,
  ⟨"get_sensors_with_highest_flow",
   "Top N sensors by average flow (measurements_db).",
   [⟨"db_client", "AsyncIOMotorClient", none⟩,
    ⟨"top_n", "int", some (.int 5)⟩]⟩,
  ⟨"get_peak_traffic_times",
   "Find time intervals (timestamps) with highest total flow.",
   [⟨"db_client", "AsyncIOMotorClient", none⟩,
    ⟨"top_n", "int", some (.int 5)⟩]⟩,
  ⟨"summarize_lane_activity",
   "Summary for a lane: total entered, avg speed, avg occupancy, total waiting time, data points.",
   [⟨"db_client", "AsyncIOMotorClient", none⟩,
    ⟨"lane_id", "str", none⟩]⟩,
  ⟨"get_average_flow_by_hour",
   "Average flow for a given hour (0-23).",
   [⟨"db_client", "AsyncIOMotorClient", none⟩,
    ⟨"hour", "int", none⟩]⟩,
  ⟨"get_average_speed_for_sensor",
   "Average speed for a specific sensor_id.",
   [⟨"db_client", "AsyncIOMotorClient", none⟩,
    ⟨"sensor_id", "str", none⟩]⟩,
  ⟨"get_sensor_data_in_time_range",
   "All records for sensor_id between start_ts & end_ts (ISO format).",
   [⟨"db_client", "AsyncIOMotorClient", none⟩,
    ⟨"sensor_id", "str", none⟩,
    ⟨"start_ts", "str", none⟩,
    ⟨"end_ts", "str", none⟩]⟩,
  ⟨"get_peak_flow_timestamp",
   "Timestamp with the single highest average flow.",
   [⟨"db_client", "AsyncIOMotorClient", none⟩]⟩,
  ⟨"generate_timeseries_chart_data",
   "Chart-ready labels & datasets for a time-series metric.",
   [⟨"db_client", "AsyncIOMotorClient", none⟩,
    ⟨"metric", "Literal[speed, flow, occupancy, entered, waiting_time]", none⟩,
    ⟨"ids", "List[str]", none⟩,
    ⟨"start_time_iso", "Optional[str]", some .null⟩,
    ⟨"end_time_iso", "Optional[str]", some .null⟩]⟩,
  ⟨"count_all_lanes",
   "Distinct lane count + up to 10 sample lane_ids.",
   [⟨"db_client", "AsyncIOMotorClient", none⟩]⟩,
  ⟨"count_all_sensors",
   "Distinct sensor count + up to 10 sample sensor_ids.",
   [⟨"db_client", "AsyncIOMotorClient", none⟩]⟩]

/-- The fields of one parameter entry built by `list_available_tools`:
`{"name": ..., "type": ..., "default": p.default if not empty else "REQUIRED"}`. -/
def manifestParamFields (p : ToolboxParam) : JsonObj :=
  .ofList [("name", .str p.name), ("type", .str p.typeName),
           ("default", p.dflt.getD (.str "REQUIRED"))]

/-- The manifest `list_available_tools` (`toolbox_async.py`) serializes: one
entry per registered tool, with `db_client` skipped from the parameter list. -/
def list_available_tools (reg : List ToolboxEntry) : Json :=
  .arr (.ofList (reg.map (fun t =>
    .obj (.ofList [
      ("name", .str t.name),
      ("description", .str t.descr),
      ("parameters", .arr (.ofList
        ((t.params.filter (fun p => p.name ≠ "db_client")).map
          (fun p => Json.obj (manifestParamFields p)))))]))))

/-- Field access on a JSON object value (`none` on non-objects / missing key). -/
def jget (j : Json) (key : String) : Option Json :=
  match j with
  | .obj fields => fields.get key
  | _ => none

/-- Index access on a JSON array value. -/
def jidx (j : Json) : Nat → Option Json :=
  match j with
  | .arr elems => go elems
  | _ => fun _ => none
where
  go : JsonList → Nat → Option Json
    | .nil, _ => none
    | .cons h _, 0 => some h
    | .cons _ t, n + 1 => go t n

/-- The `/mcp` endpoint as deployed: `mcp_jsonrpc_handler` over the imported
`AVAILABLE_TOOLS_SCHEMA`. -/
def mcpHandler (impls : ToolTable) : RpcInbound → HttpResponse :=
  mcp_jsonrpc_handler impls AVAILABLE_TOOLS_SCHEMA

/-- The `tools/call` response as a function of the dispatched invocation's
outcome (source lines 134-148 of `minimal_wrapper.py`). -/
def jsonrpcCallOutcome (idv : Json) : Except String String → HttpResponse
  | .ok result => ⟨200, some (rpcResult (toolCallContent result) idv)⟩
  | .error e => ⟨200, some (rpcError (-32603) ("Internal error: " ++ e) idv)⟩

/-- The `/mcp/invoke` response as a function of the dispatched invocation's
outcome (source lines 214-230 of `minimal_wrapper.py`). -/
def restInvokeOutcome (parse : String → Except String Json) :
    Except String String → HttpResponse
  | .error e =>
      ⟨500, some (.obj (.ofList [("error", .str ("Tool execution failed: " ++ e))]))⟩
  | .ok s =>
      match parse s with
      | .error pe =>
          ⟨500, some (.obj (.ofList [("error", .str ("Tool execution failed: " ++ pe))]))⟩
      | .ok j => ⟨200, some (.obj (.ofList [("result", j)]))⟩

/-- A tool table with exactly the shape of `TOOL_IMPLEMENTATIONS`: the five
registered names resolve, everything else does not.  The bodies stand in for
the external MongoDB coroutines (never reached by the dispatch-path facts
proved below). -/
def registryStub : ToolTable :=
  fun n => if TOOL_NAMES.contains n then some (fun _ => .error "MongoDB unavailable") else none

theorem registryStub_shaped : registryShaped registryStub := by
  intro n
  have hc : TOOL_NAMES.contains n = true ↔ n ∈ TOOL_NAMES := by
    simp [List.contains_iff_exists_mem_beq]
  unfold registryStub
  by_cases h : TOOL_NAMES.contains n = true
  · simp [h, hc.mp h]
  · simp [h]

/-- C1: for every registered tool and every argument mapping, an exception
raised by the implementation is caught by the adapter: `tools/call` answers
HTTP 200 with JSON-RPC error `-32603` carrying the exception's message text,
and `POST /mcp/invoke` answers HTTP 500 with an error body carrying the same
text.  Both handlers are total functions into `HttpResponse`, so the
exception never propagates out of the handler as an unhandled fault. -/
theorem tool_exception_is_invocation_failed
    (impls : ToolTable) (parse : String → Except String Json)
    (name : String) (f : Impl) (args : Args) (pv : Option Json) (idv : Json) (msg : String)
    (hreg : impls name = some f) (hne : name ≠ "") (hfail : f args = .error msg) :
    mcpHandler impls (.request ⟨some "tools/call", some name, args, pv, idv⟩)
      = ⟨200, some (rpcError (-32603) ("Internal error: " ++ msg) idv)⟩
    ∧ invoke_tool impls parse (.request (some name) args)
      = ⟨500, some (.obj (.ofList [("error", .str ("Tool execution failed: " ++ msg))]))⟩ := by
  constructor
  · simp [mcpHandler, mcp_jsonrpc_handler, pyFalsy, hne, hreg, hfail]
  · simp [invoke_tool, pyFalsy, hne, hreg, hfail]

/-- A concrete tool table for witnesses: `get_descriptive_stats` is bound to
an implementation whose invocation raises `boom`. -/
def implsBoom : ToolTable :=
  fun n => if n = "get_descriptive_stats" then some (fun _ => .error "boom") else none

/-- A stand-in for `json.loads` that rejects every string. -/
def noParse : String → Except String Json :=
  fun _ => .error "Expecting value: line 1 column 1 (char 0)"

theorem tool_exception_is_invocation_failed_witness :
    mcpHandler implsBoom (.request ⟨some "tools/call", some "get_descriptive_stats", [], none, .int 7⟩)
      = ⟨200, some (rpcError (-32603) ("Internal error: " ++ "boom") (.int 7))⟩
    ∧ invoke_tool implsBoom noParse (.request (some "get_descriptive_stats") [])
      = ⟨500, some (.obj (.ofList [("error", .str ("Tool execution failed: " ++ "boom"))]))⟩ :=
  tool_exception_is_invocation_failed implsBoom noParse "get_descriptive_stats"
    (fun _ => .error "boom") [] none (.int 7) "boom" rfl (by decide) rfl

/-- C2 counterexample: the empty string is a tool name not present in
`TOOL_IMPLEMENTATIONS` (`registryStub` has exactly the registered names),
yet `tools/call` with `name = ""` answers `-32602` (the falsy-name guard
fires before the registry lookup), not `-32601`, and `POST /mcp/invoke`
with `tool = ""` answers HTTP 400, not 404. -/
theorem unknown_tool_error_codes_counterexample :
    registryStub "" = none
    ∧ mcpHandler registryStub (.request ⟨some "tools/call", some "", [], none, .int 1⟩)
        = ⟨200, some (rpcError (-32602) "Invalid params: tool name required" (.int 1))⟩
    ∧ invoke_tool registryStub noParse (.request (some "") [])
        = ⟨400, some (.obj (.ofList [("error", .str "Tool name required in 'tool' field")]))⟩
    ∧ rpcError (-32602) "Invalid params: tool name required" (.int 1)
        ≠ rpcError (-32601) ("Method not found: " ++ "") (.int 1)
    ∧ (400 : Nat) ≠ 404 := by
  refine ⟨rfl, rfl, rfl, ?_, by decide⟩
  decide

/-- C2 (amended): for every nonempty tool name not present in the registry,
`tools/call` answers JSON-RPC error `-32601` and `POST /mcp/invoke` answers
HTTP 404 with body `{"error": "Tool '<name>' not found"}`.  (The empty-string
name instead trips the missing-name guards: `-32602` resp. HTTP 400.) -/
theorem unknown_tool_error_codes
    (impls : ToolTable) (parse : String → Except String Json)
    (name : String) (args : Args) (pv : Option Json) (idv : Json)
    (hne : name ≠ "") (hnone : impls name = none) :
    mcpHandler impls (.request ⟨some "tools/call", some name, args, pv, idv⟩)
      = ⟨200, some (rpcError (-32601) ("Method not found: " ++ name) idv)⟩
    ∧ invoke_tool impls parse (.request (some name) args)
      = ⟨404, some (.obj (.ofList [("error", .str ("Tool '" ++ name ++ "' not found"))]))⟩ := by
  constructor
  · simp [mcpHandler, mcp_jsonrpc_handler, pyFalsy, hne, hnone]
  · simp [invoke_tool, pyFalsy, hne, hnone]

theorem unknown_tool_error_codes_witness :
    mcpHandler registryStub (.request ⟨some "tools/call", some "missing_tool", [], none, .int 2⟩)
      = ⟨200, some (rpcError (-32601) ("Method not found: " ++ "missing_tool") (.int 2))⟩
    ∧ invoke_tool registryStub noParse (.request (some "missing_tool") [])
      = ⟨404, some (.obj (.ofList [("error", .str ("Tool '" ++ "missing_tool" ++ "' not found"))]))⟩ :=
  unknown_tool_error_codes registryStub noParse "missing_tool" [] none (.int 2)
    (by decide) rfl

/-- C3 counterexample: in the manifest served by `GET /mcp/manifest`
(`minimal_wrapper.py`), the parameter entry `lane_id` of the first tool,
`get_daily_traffic_profile`, carries no `default` field at all — required-ness
is conveyed by the JSON-Schema `required` name list instead of a `"REQUIRED"`
default sentinel.  So not every discovery payload gives each parameter entry
a `default` field. -/
theorem manifest_parameter_default_counterexample :
    ((((get_manifest.body.bind (jget · "tools")).bind (jidx · 0)).bind
        (jget · "parameters")).bind (jget · "properties")).bind (jget · "lane_id")
      = some (schemaProp "string" "The specific lane_id to analyze from the 'lane_data' collection, e.g., ':13445139_0'.")
    ∧ jget (schemaProp "string" "The specific lane_id to analyze from the 'lane_data' collection, e.g., ':13445139_0'.") "default" = none
    ∧ (((get_manifest.body.bind (jget · "tools")).bind (jidx · 0)).bind
        (jget · "parameters")).bind (jget · "required")
      = some (.arr (.ofList [.str "lane_id", .str "metric_field"])) := by
  exact ⟨rfl, rfl, rfl⟩

/-- C3 (amended): in the manifest built by `list_available_tools`
(`toolbox_async.py`) every parameter entry (the non-`db_client` parameters of
each registered tool) carries a `default` field, and that field equals the
literal string `"REQUIRED"` exactly when the parameter has no concrete
default.  The `GET /mcp/manifest` payload of `minimal_wrapper.py`, by
contrast, has no `default` fields: it marks required-ness via the
JSON-Schema `required` list (see the counterexample). -/
theorem toolbox_manifest_required_sentinel :
    ∀ t ∈ toolbox_registry, ∀ p ∈ t.params, p.name ≠ "db_client" →
      ((manifestParamFields p).get "default").isSome = true
      ∧ ((manifestParamFields p).get "default" = some (.str "REQUIRED") ↔ p.dflt = none) := by
  decide

theorem toolbox_manifest_required_sentinel_witness :
    ((manifestParamFields ⟨"metric", "Metric", none⟩).get "default").isSome = true
    ∧ ((manifestParamFields ⟨"metric", "Metric", none⟩).get "default" = some (.str "REQUIRED")
        ↔ (ToolboxParam.mk "metric" "Metric" none).dflt = none) :=
  toolbox_manifest_required_sentinel
    ⟨"get_lanes_by_metric",
     "Ranks lanes by a metric (occupancy, speed, density, entered, waiting_time).",
     [⟨"db_client", "AsyncIOMotorClient", none⟩, ⟨"metric", "Metric", none⟩,
      ⟨"order", "SortOrder", some (.str "highest")⟩, ⟨"top_n", "int", some (.int 5)⟩]⟩
    (by decide) ⟨"metric", "Metric", none⟩ (by decide) (by decide)

/-- Python raises a `TypeError` when keyword binding leaves a no-default
parameter unbound (the dispatcher performs no validation of its own before
the call, so this is the first point of failure). -/
theorem bindKwargs_missing_required (sig : List PyParam) (args : Args) (p : PyParam)
    (hp : p ∈ sig) (hreq : p.dflt = none) (habs : ∀ kv ∈ args, kv.1 ≠ p.name) :
    ∃ m, bindKwargs sig args = .error m := by
  unfold bindKwargs
  cases hfind : args.find? (fun kv => !(sig.any (fun q => q.name == kv.1))) with
  | some kv => exact ⟨_, rfl⟩
  | none =>
    have hsome : (sig.find? (fun q => q.dflt.isNone && !(args.any (fun kv => kv.1 == q.name)))).isSome := by
      rw [List.find?_isSome]
      refine ⟨p, hp, ?_⟩
      simp [hreq, List.any_eq_false]
      intro a b hab
      exact habs (a, b) hab
    obtain ⟨q, hq⟩ := Option.isSome_iff_exists.mp hsome
    rw [hq]
    exact ⟨_, rfl⟩

/-- C4: a call that omits a required (no-default) parameter of a registered
tool is not rejected by any pre-validation: the dispatcher calls the
implementation with the arguments as given, Python keyword binding fails
inside the guarded call, and the failure surfaces as an `InvocationFailed`
error — `-32603` with HTTP 200 on `tools/call`, HTTP 500 on `/mcp/invoke` —
never as the `-32602` InvalidParams error. -/
theorem missing_required_argument_is_invocation_failed
    (impls : ToolTable) (parse : String → Except String Json)
    (name : String) (sig : List PyParam)
    (body : List (String × Json) → Except String String) (args : Args)
    (p : PyParam) (pv : Option Json) (idv : Json)
    (hne : name ≠ "") (hreg : impls name = some (mkPyTool sig body))
    (hp : p ∈ sig) (hreq : p.dflt = none) (habs : ∀ kv ∈ args, kv.1 ≠ p.name) :
    ∃ m, mcpHandler impls (.request ⟨some "tools/call", some name, args, pv, idv⟩)
        = ⟨200, some (rpcError (-32603) ("Internal error: " ++ m) idv)⟩
      ∧ invoke_tool impls parse (.request (some name) args)
        = ⟨500, some (.obj (.ofList [("error", .str ("Tool execution failed: " ++ m))]))⟩
      ∧ rpcError (-32603) ("Internal error: " ++ m) idv
          ≠ rpcError (-32602) "Invalid params: tool name required" idv := by
  obtain ⟨m, hm⟩ := bindKwargs_missing_required sig args p hp hreq habs
  have hcall : mkPyTool sig body args = .error m := by simp [mkPyTool, hm]
  refine ⟨m, ?_, ?_, ?_⟩
  · simp [mcpHandler, mcp_jsonrpc_handler, pyFalsy, hne, hreg, hcall]
  · simp [invoke_tool, pyFalsy, hne, hreg, hcall]
  · simp [rpcError, JsonObj.ofList]

/-- A table binding `get_daily_traffic_profile` to a Python function with the
source's signature `(lane_id, metric_field)`, both required, and an abstract
body. -/
def implsProfile : ToolTable := fun n =>
  if n = "get_daily_traffic_profile" then
    some (mkPyTool [⟨"lane_id", none⟩, ⟨"metric_field", none⟩] (fun _ => .ok "null"))
  else none

theorem missing_required_argument_is_invocation_failed_witness :
    ∃ m, mcpHandler implsProfile
          (.request ⟨some "tools/call", some "get_daily_traffic_profile",
                     [("metric_field", .str "speed")], none, .int 3⟩)
        = ⟨200, some (rpcError (-32603) ("Internal error: " ++ m) (.int 3))⟩
      ∧ invoke_tool implsProfile noParse
          (.request (some "get_daily_traffic_profile") [("metric_field", .str "speed")])
        = ⟨500, some (.obj (.ofList [("error", .str ("Tool execution failed: " ++ m))]))⟩
      ∧ rpcError (-32603) ("Internal error: " ++ m) (.int 3)
          ≠ rpcError (-32602) "Invalid params: tool name required" (.int 3) :=
  missing_required_argument_is_invocation_failed implsProfile noParse
    "get_daily_traffic_profile" [⟨"lane_id", none⟩, ⟨"metric_field", none⟩]
    (fun _ => .ok "null") [("metric_field", .str "speed")] ⟨"lane_id", none⟩
    none (.int 3) (by decide) rfl (by decide) rfl (by decide)

/-- The `id` field of a JSON-RPC success envelope echoes the request id. -/
theorem jget_rpcResult_id (x i : Json) : jget (rpcResult x i) "id" = some i := rfl

/-- The `id` field of a JSON-RPC error envelope echoes the request id. -/
theorem jget_rpcError_id (c : Int) (m : String) (i : Json) : jget (rpcError c m i) "id" = some i := rfl

/-- C5: a `notifications/initialized` request is answered with HTTP 204 and an
empty body — no JSON-RPC envelope, no id echo — while every other recognized
method (`initialize`, `tools/list`, `tools/call`) is answered with HTTP 200
and a JSON body whose `id` field echoes the request's id. -/
theorem initialized_notification_no_envelope :
    (∀ (impls : ToolTable) (r : RpcReq), r.method = some "notifications/initialized" →
       mcpHandler impls (.request r) = ⟨204, none⟩)
    ∧ (∀ (impls : ToolTable) (r : RpcReq) (m : String), r.method = some m →
         (m = "initialize" ∨ m = "tools/list" ∨ m = "tools/call") →
         (mcpHandler impls (.request r)).status = 200
         ∧ ((mcpHandler impls (.request r)).body.bind (jget · "id")) = some r.idv) := by
  constructor
  · intro impls r hm
    rcases r with ⟨mo, pn, args, pv, idv⟩
    simp only at hm
    subst hm
    simp [mcpHandler, mcp_jsonrpc_handler, pyFalsy]
  · intro impls r m hm hcases
    rcases r with ⟨mo, pn, args, pv, idv⟩
    simp only at hm ⊢
    subst hm
    rcases hcases with rfl | rfl | rfl
    · simp [mcpHandler, mcp_jsonrpc_handler, pyFalsy, jget_rpcResult_id]
    · simp [mcpHandler, mcp_jsonrpc_handler, pyFalsy, jget_rpcResult_id]
    · cases pn with
      | none =>
          simp [mcpHandler, mcp_jsonrpc_handler, pyFalsy, jget_rpcError_id]
      | some nm =>
          by_cases hnm : nm = ""
          · subst hnm
            simp [mcpHandler, mcp_jsonrpc_handler, pyFalsy, jget_rpcError_id]
          · cases himp : impls nm with
            | none =>
                simp [mcpHandler, mcp_jsonrpc_handler, pyFalsy, hnm, himp, jget_rpcError_id]
            | some f =>
                cases hout : f args with
                | ok s =>
                    simp [mcpHandler, mcp_jsonrpc_handler, pyFalsy, hnm, himp, hout,
                          jget_rpcResult_id]
                | error e =>
                    simp [mcpHandler, mcp_jsonrpc_handler, pyFalsy, hnm, himp, hout,
                          jget_rpcError_id]

theorem initialized_notification_no_envelope_witness :
    mcpHandler registryStub (.request ⟨some "notifications/initialized", none, [], none, .int 9⟩)
      = ⟨204, none⟩
    ∧ (mcpHandler registryStub (.request ⟨some "initialize", none, [], none, .int 9⟩)).status = 200
    ∧ ((mcpHandler registryStub (.request ⟨some "initialize", none, [], none, .int 9⟩)).body.bind
        (jget · "id")) = some (.int 9) :=
  ⟨initialized_notification_no_envelope.1 registryStub _ rfl,
   (initialized_notification_no_envelope.2 registryStub
      ⟨some "initialize", none, [], none, .int 9⟩ "initialize" rfl (Or.inl rfl)).1,
   (initialized_notification_no_envelope.2 registryStub
      ⟨some "initialize", none, [], none, .int 9⟩ "initialize" rfl (Or.inl rfl)).2⟩

/-- Python `or`: a truthy left operand wins. -/
theorem pyOr_truthy (s : String) (hs : s ≠ "") (b : Option String) :
    pyOr (some s) b = some s := by
  simp [pyOr, hs]

/-- Python `or`: a falsy left operand defers to the right operand. -/
theorem pyOr_falsy (a b : Option String) (ha : pyFalsy a = true) : pyOr a b = b := by
  cases a with
  | none => rfl
  | some s =>
      simp [pyFalsy] at ha
      simp [pyOr, ha]

/-- C6 counterexample: on `POST /mcp/invoke` (`compatible_server.py`) the
second session source is the request body's `sessionId` and the cookie is
never consulted.  With no header, body id `B`, query id `Q` and cookie `C`,
the code resolves to `B` while the claimed header → query → cookie order
resolves to `Q`; and with only a cookie present the code mints a fresh
temporary id instead of using the cookie. -/
theorem session_precedence_counterexample :
    resolveSessionInvoke none (some "B") (some "Q") "fresh" [] = ("B", [])
    ∧ resolveSessionSpec none (some "Q") (some "C") "fresh" [] = ("Q", [])
    ∧ ("B" : String) ≠ "Q"
    ∧ resolveSessionInvoke none none none "fresh" [] = ("fresh", [("fresh", .temp)])
    ∧ resolveSessionSpec none none (some "C") "fresh" [] = ("C", []) :=
  ⟨rfl, rfl, by decide, rfl, rfl⟩

/-- C6 (amended): `GET /mcp/manifest` resolves the session id with precedence
header → query parameter → cookie, while `POST /mcp/invoke` resolves it with
precedence header → body field `sessionId` → query parameter and never reads
the cookie; on both endpoints, when every consulted source is absent or
empty, the server mints the fresh id and stores it marked temporary. -/
theorem session_resolution_order
    (h q c b : Option String) (fresh : String) (store : List (String × SessionMeta)) :
    (∀ s, h = some s → s ≠ "" →
       resolveSessionManifest h q c fresh store = (s, store)
       ∧ resolveSessionInvoke h b q fresh store = (s, store))
    ∧ (pyFalsy h = true → ∀ s, q = some s → s ≠ "" →
       resolveSessionManifest h q c fresh store = (s, store))
    ∧ (pyFalsy h = true → ∀ s, b = some s → s ≠ "" →
       resolveSessionInvoke h b q fresh store = (s, store))
    ∧ (pyFalsy h = true → pyFalsy q = true → ∀ s, c = some s → s ≠ "" →
       resolveSessionManifest h q c fresh store = (s, store))
    ∧ (pyFalsy h = true → pyFalsy b = true → ∀ s, q = some s → s ≠ "" →
       resolveSessionInvoke h b q fresh store = (s, store))
    ∧ (pyFalsy h = true → pyFalsy q = true → pyFalsy c = true →
       resolveSessionManifest h q c fresh store = (fresh, storeSet store fresh .temp))
    ∧ (pyFalsy h = true → pyFalsy b = true → pyFalsy q = true →
       resolveSessionInvoke h b q fresh store = (fresh, storeSet store fresh .temp)) := by
  refine ⟨?_, ?_, ?_, ?_, ?_, ?_, ?_⟩
  · rintro s rfl hs
    constructor <;> simp [resolveSessionManifest, resolveSessionInvoke, pyOr_truthy s hs, hs]
  · rintro hh s rfl hs
    simp [resolveSessionManifest, pyOr_falsy h _ hh, pyOr_truthy s hs, hs]
  · rintro hh s rfl hs
    simp [resolveSessionInvoke, pyOr_falsy h _ hh, pyOr_truthy s hs, hs]
  · rintro hh hq s rfl hs
    simp [resolveSessionManifest, pyOr_falsy h _ hh, pyOr_falsy q _ hq, hs]
  · rintro hh hb s rfl hs
    simp [resolveSessionInvoke, pyOr_falsy h _ hh, pyOr_falsy b _ hb, pyOr_truthy s hs, hs]
  · intro hh hq hc
    rw [resolveSessionManifest, pyOr_falsy h _ hh, pyOr_falsy q _ hq]
    cases c with
    | none => rfl
    | some s =>
        simp [pyFalsy] at hc
        simp [hc]
  · intro hh hb hq
    rw [resolveSessionInvoke, pyOr_falsy h _ hh, pyOr_falsy b _ hb]
    cases q with
    | none => rfl
    | some s =>
        simp [pyFalsy] at hq
        simp [hq]

theorem session_resolution_order_witness :
    resolveSessionManifest (some "H") (some "Q") (some "C") "f" [] = ("H", [])
    ∧ resolveSessionInvoke none (some "B") (some "Q") "f" [] = ("B", [])
    ∧ resolveSessionManifest none none none "f" [] = ("f", [("f", .temp)]) :=
  ⟨((session_resolution_order (some "H") (some "Q") (some "C") (some "B") "f" []).1
      "H" rfl (by decide)).1,
   (session_resolution_order none (some "Q") (some "C") (some "B") "f" []).2.2.1
      rfl "B" rfl (by decide),
   (session_resolution_order none none none none "f" []).2.2.2.2.2.1 rfl rfl rfl⟩

/- `ndarray.tolist()` output is built of plain numbers and nested lists only
(mutual structural induction with its list form). -/
mutual
theorem tolist_plainNumeric {F : Type} : (t : NpTree F) → (t.tolist).plainNumeric = true
  | .int _ => rfl
  | .float _ => rfl
  | .arr xs => by
      simp only [NpTree.tolist, Enc.plainNumeric]
      exact tolistL_plainNumericL xs
theorem tolistL_plainNumericL {F : Type} : (ts : NpTreeList F) → (ts.tolistL).plainNumericL = true
  | .nil => rfl
  | .cons h t => by
      simp only [NpTreeList.tolistL, EncList.plainNumericL, Bool.and_eq_true]
      exact ⟨tolist_plainNumeric h, tolistL_plainNumericL t⟩
end

/-- C7: `json_encoder` maps an ObjectId to its string representation, a
datetime or pandas Timestamp to its ISO-8601 text, a numpy integer to a plain
integer, a numpy floating value to a plain float, and a numpy array to a
nested list of plain numbers; a value of any type with no registered
conversion raises a `TypeError` (an `.error` outcome, never a value). -/
theorem json_encoder_conversions {F : Type} :
    (∀ h : String, @json_encoder F (.objectId h) = .ok (.str h))
    ∧ (∀ iso : String, @json_encoder F (.datetimeVal iso) = .ok (.str iso))
    ∧ (∀ iso : String, @json_encoder F (.pdTimestampVal iso) = .ok (.str iso))
    ∧ (∀ n : Int, @json_encoder F (.npInteger n) = .ok (.int n))
    ∧ (∀ x : F, json_encoder (.npFloating x) = .ok (.float x))
    ∧ (∀ xs : NpTreeList F, json_encoder (.npArray xs) = .ok (.list xs.tolistL)
         ∧ (Enc.list xs.tolistL).plainNumeric = true)
    ∧ (∀ ty : String, @json_encoder F (.unregistered ty)
         = .error ("Object of type " ++ ty ++ " is not JSON serializable")) := by
  refine ⟨fun _ => rfl, fun _ => rfl, fun _ => rfl, fun _ => rfl, fun _ => rfl, ?_, fun _ => rfl⟩
  intro xs
  refine ⟨rfl, ?_⟩
  simp only [Enc.plainNumeric]
  exact tolistL_plainNumericL xs

/-- C8: both adapters consult the same tool table (`TOOL_IMPLEMENTATIONS`):
for every tool name, either it resolves on neither path (the `tools/call`
path answers `-32601` exactly when the `/mcp/invoke` path answers 404), or it
resolves on both paths to the same implementation `f`, and then each
adapter's response is its protocol wrapping of the one invocation `f args`. -/
theorem shared_tool_table
    (impls : ToolTable) (parse : String → Except String Json)
    (name : String) (args : Args) (pv : Option Json) (idv : Json)
    (hne : name ≠ "") :
    (impls name = none →
       mcpHandler impls (.request ⟨some "tools/call", some name, args, pv, idv⟩)
         = ⟨200, some (rpcError (-32601) ("Method not found: " ++ name) idv)⟩
       ∧ invoke_tool impls parse (.request (some name) args)
         = ⟨404, some (.obj (.ofList [("error", .str ("Tool '" ++ name ++ "' not found"))]))⟩)
    ∧ (∀ f : Impl, impls name = some f →
       mcpHandler impls (.request ⟨some "tools/call", some name, args, pv, idv⟩)
         = jsonrpcCallOutcome idv (f args)
       ∧ invoke_tool impls parse (.request (some name) args)
         = restInvokeOutcome parse (f args)) := by
  constructor
  · intro hnone
    constructor
    · simp [mcpHandler, mcp_jsonrpc_handler, pyFalsy, hne, hnone]
    · simp [invoke_tool, pyFalsy, hne, hnone]
  · intro f hreg
    constructor
    · cases hout : f args with
      | ok s =>
          simp [mcpHandler, mcp_jsonrpc_handler, pyFalsy, hne, hreg, hout, jsonrpcCallOutcome]
      | error e =>
          simp [mcpHandler, mcp_jsonrpc_handler, pyFalsy, hne, hreg, hout, jsonrpcCallOutcome]
    · cases hout : f args with
      | ok s =>
          cases hp : parse s with
          | ok j => simp [invoke_tool, pyFalsy, hne, hreg, hout, hp, restInvokeOutcome]
          | error pe => simp [invoke_tool, pyFalsy, hne, hreg, hout, hp, restInvokeOutcome]
      | error e =>
          simp [invoke_tool, pyFalsy, hne, hreg, hout, restInvokeOutcome]

theorem shared_tool_table_witness :
    (mcpHandler registryStub (.request ⟨some "tools/call", some "missing_tool", [], none, .int 4⟩)
       = ⟨200, some (rpcError (-32601) ("Method not found: " ++ "missing_tool") (.int 4))⟩
     ∧ invoke_tool registryStub noParse (.request (some "missing_tool") [])
       = ⟨404, some (.obj (.ofList [("error", .str ("Tool '" ++ "missing_tool" ++ "' not found"))]))⟩)
    ∧ (mcpHandler implsBoom (.request ⟨some "tools/call", some "get_descriptive_stats", [], none, .int 4⟩)
         = jsonrpcCallOutcome (.int 4) ((fun _ => .error "boom") ([] : Args))
       ∧ invoke_tool implsBoom noParse (.request (some "get_descriptive_stats") [])
         = restInvokeOutcome noParse ((fun _ => .error "boom") ([] : Args))) :=
  ⟨(shared_tool_table registryStub noParse "missing_tool" [] none (.int 4) (by decide)).1 rfl,
   (shared_tool_table implsBoom noParse "get_descriptive_stats" [] none (.int 4) (by decide)).2
     (fun _ => .error "boom") rfl⟩

/-- C9: when a tool implementation completes successfully with string `s`,
the legacy REST path first applies `json.loads` to `s`: if `s` is not valid
JSON the endpoint answers HTTP 500 with a tool-execution-failed body even
though the implementation succeeded, and only a parsable `s` is wrapped as
`{"result": ...}`; the JSON-RPC `tools/call` path instead embeds `s`
verbatim as the text content of a successful result, independent of any
parsing. -/
theorem rest_parses_result_jsonrpc_embeds_it
    (impls : ToolTable) (parse : String → Except String Json)
    (name : String) (f : Impl) (args : Args) (s : String) (pv : Option Json) (idv : Json)
    (hne : name ≠ "") (hreg : impls name = some f) (hok : f args = .ok s) :
    mcpHandler impls (.request ⟨some "tools/call", some name, args, pv, idv⟩)
      = ⟨200, some (rpcResult (toolCallContent s) idv)⟩
    ∧ (∀ pe, parse s = .error pe →
        invoke_tool impls parse (.request (some name) args)
          = ⟨500, some (.obj (.ofList [("error", .str ("Tool execution failed: " ++ pe))]))⟩)
    ∧ (∀ j, parse s = .ok j →
        invoke_tool impls parse (.request (some name) args)
          = ⟨200, some (.obj (.ofList [("result", j)]))⟩) := by
  refine ⟨?_, ?_, ?_⟩
  · simp [mcpHandler, mcp_jsonrpc_handler, pyFalsy, hne, hreg, hok]
  · intro pe hpe
    simp [invoke_tool, pyFalsy, hne, hreg, hok, hpe]
  · intro j hj
    simp [invoke_tool, pyFalsy, hne, hreg, hok, hj]

/-- A table whose `get_descriptive_stats` returns a string that is not JSON. -/
def implsRaw : ToolTable :=
  fun n => if n = "get_descriptive_stats" then some (fun _ => .ok "plain text result") else none

theorem rest_parses_result_jsonrpc_embeds_it_witness :
    mcpHandler implsRaw (.request ⟨some "tools/call", some "get_descriptive_stats", [], none, .int 5⟩)
      = ⟨200, some (rpcResult (toolCallContent "plain text result") (.int 5))⟩
    ∧ invoke_tool implsRaw noParse (.request (some "get_descriptive_stats") [])
      = ⟨500, some (.obj (.ofList [("error",
          .str ("Tool execution failed: " ++ "Expecting value: line 1 column 1 (char 0)"))]))⟩ :=
  ⟨(rest_parses_result_jsonrpc_embeds_it implsRaw noParse "get_descriptive_stats"
      (fun _ => .ok "plain text result") [] "plain text result" none (.int 5)
      (by decide) rfl rfl).1,
   (rest_parses_result_jsonrpc_embeds_it implsRaw noParse "get_descriptive_stats"
      (fun _ => .ok "plain text result") [] "plain text result" none (.int 5)
      (by decide) rfl rfl).2.1 "Expecting value: line 1 column 1 (char 0)" rfl⟩

/-- C10: every method-level JSON-RPC error of the `/mcp` handler — `-32601`
for an unknown method or unknown tool, `-32602` for a missing tool name,
`-32603` for a failing implementation — is carried in an HTTP 200 response;
only a body without a method (`-32600`), an unparsable body (`-32700`) and an
unexpected handler fault get non-200 statuses: 400, 400 and 500. -/
theorem jsonrpc_http_status_mapping
    (impls : ToolTable) (args : Args) (pv : Option Json) (idv : Json)
    (name m msg : String) (f : Impl) (mo nm : Option String) :
    (m ≠ "" → m ≠ "initialize" → m ≠ "notifications/initialized" →
     m ≠ "tools/list" → m ≠ "tools/call" →
       mcpHandler impls (.request ⟨some m, nm, args, pv, idv⟩)
         = ⟨200, some (rpcError (-32601) ("Method not found: " ++ m) idv)⟩)
    ∧ (name ≠ "" → impls name = none →
       mcpHandler impls (.request ⟨some "tools/call", some name, args, pv, idv⟩)
         = ⟨200, some (rpcError (-32601) ("Method not found: " ++ name) idv)⟩)
    ∧ (pyFalsy nm = true →
       mcpHandler impls (.request ⟨some "tools/call", nm, args, pv, idv⟩)
         = ⟨200, some (rpcError (-32602) "Invalid params: tool name required" idv)⟩)
    ∧ (name ≠ "" → impls name = some f → f args = .error msg →
       mcpHandler impls (.request ⟨some "tools/call", some name, args, pv, idv⟩)
         = ⟨200, some (rpcError (-32603) ("Internal error: " ++ msg) idv)⟩)
    ∧ (pyFalsy mo = true →
       mcpHandler impls (.request ⟨mo, nm, args, pv, idv⟩)
         = ⟨400, some (rpcError (-32600) "Invalid Request: method required" idv)⟩)
    ∧ mcpHandler impls .malformed
        = ⟨400, some (rpcError (-32700) "Parse error: Invalid JSON" .null)⟩
    ∧ mcpHandler impls (.fault msg)
        = ⟨500, some (rpcError (-32603) ("Internal error: " ++ msg) .null)⟩ := by
  refine ⟨?_, ?_, ?_, ?_, ?_, rfl, rfl⟩
  · intro h0 h1 h2 h3 h4
    simp [mcpHandler, mcp_jsonrpc_handler, pyFalsy, h0, h1, h2, h3, h4]
  · intro hne hnone
    simp [mcpHandler, mcp_jsonrpc_handler, pyFalsy, hne, hnone]
  · intro hfalsy
    cases nm with
    | none => simp [mcpHandler, mcp_jsonrpc_handler, pyFalsy]
    | some s =>
        simp [pyFalsy] at hfalsy
        subst hfalsy
        simp [mcpHandler, mcp_jsonrpc_handler, pyFalsy]
  · intro hne hreg hfail
    simp [mcpHandler, mcp_jsonrpc_handler, pyFalsy, hne, hreg, hfail]
  · intro hfalsy
    cases mo with
    | none => simp [mcpHandler, mcp_jsonrpc_handler, pyFalsy]
    | some s =>
        simp [pyFalsy] at hfalsy
        subst hfalsy
        simp [mcpHandler, mcp_jsonrpc_handler, pyFalsy]

theorem jsonrpc_http_status_mapping_witness :
    mcpHandler registryStub (.request ⟨some "resources/list", none, [], none, .int 6⟩)
      = ⟨200, some (rpcError (-32601) ("Method not found: " ++ "resources/list") (.int 6))⟩
    ∧ mcpHandler registryStub (.request ⟨some "tools/call", some "missing_tool", [], none, .int 6⟩)
      = ⟨200, some (rpcError (-32601) ("Method not found: " ++ "missing_tool") (.int 6))⟩
    ∧ mcpHandler registryStub (.request ⟨some "tools/call", none, [], none, .int 6⟩)
      = ⟨200, some (rpcError (-32602) "Invalid params: tool name required" (.int 6))⟩
    ∧ mcpHandler implsBoom (.request ⟨some "tools/call", some "get_descriptive_stats", [], none, .int 6⟩)
      = ⟨200, some (rpcError (-32603) ("Internal error: " ++ "boom") (.int 6))⟩
    ∧ mcpHandler registryStub (.request ⟨none, none, [], none, .int 6⟩)
      = ⟨400, some (rpcError (-32600) "Invalid Request: method required" (.int 6))⟩
    ∧ mcpHandler registryStub .malformed
      = ⟨400, some (rpcError (-32700) "Parse error: Invalid JSON" .null)⟩
    ∧ mcpHandler registryStub (.fault "boom")
      = ⟨500, some (rpcError (-32603) ("Internal error: " ++ "boom") .null)⟩ :=
  ⟨(jsonrpc_http_status_mapping registryStub [] none (.int 6) "x" "resources/list" "boom"
      (fun _ => .error "boom") none none).1
      (by decide) (by decide) (by decide) (by decide) (by decide),
   (jsonrpc_http_status_mapping registryStub [] none (.int 6) "missing_tool" "m" "boom"
      (fun _ => .error "boom") none none).2.1 (by decide) rfl,
   (jsonrpc_http_status_mapping registryStub [] none (.int 6) "x" "m" "boom"
      (fun _ => .error "boom") none none).2.2.1 rfl,
   (jsonrpc_http_status_mapping implsBoom [] none (.int 6) "get_descriptive_stats" "m" "boom"
      (fun _ => .error "boom") none none).2.2.2.1 (by decide) rfl rfl,
   (jsonrpc_http_status_mapping registryStub [] none (.int 6) "x" "m" "boom"
      (fun _ => .error "boom") none none).2.2.2.2.1 rfl,
   (jsonrpc_http_status_mapping registryStub [] none (.int 6) "x" "m" "boom"
      (fun _ => .error "boom") none none).2.2.2.2.2.1,
   (jsonrpc_http_status_mapping registryStub [] none (.int 6) "x" "m" "boom"
      (fun _ => .error "boom") none none).2.2.2.2.2.2⟩

/-- Every name registered in `TOOL_IMPLEMENTATIONS` is nonempty, so the
`name ≠ ""` hypotheses of the dispatch theorems above exclude no registered
tool of the deployed registry. -/
theorem TOOL_NAMES_nonempty : ∀ n ∈ TOOL_NAMES, n ≠ "" := by decide
